import Mathlib

/-!
# pusher-http-go: the transport (`request.go`) and the trigger validator

A shallow embedding of `Request.send` from `request.go`.  Go strings and byte
slices are modelled by `String` (bodies on this API are JSON or plain text, and
the conversion `string(b)` copies the bytes unchanged).  The Go standard
library is the boundary of the model: `http.NewRequest`, `Header.Set`,
`Client.Do` and `ioutil.ReadAll` are modelled by their documented behaviour,
the network itself being a parameter (`World`): what `net/url` makes of a url,
what one `Client.Do` answers, and which HTTP requests the client puts on the
network while it serves that `Do` (its default policy follows redirects).
-/

namespace Pusher

/-! ## Go standard library boundary -/

/-- A Go `error` value, identified by its message. -/
structure GoError where
  msg : String
  deriving DecidableEq, Repr

/-- Go `http.Header`: keys with their lists of values. -/
structure Header where
  entries : List (String × List String)
  deriving DecidableEq, Repr

/-- The empty header map `make(Header)`. -/
def Header.empty : Header := ⟨[]⟩

/-- Go `Header.Set`: replaces any existing values of `key` by the single value
`value` (the key `Content-Type` is already in canonical MIME form). -/
def Header.Set (h : Header) (key value : String) : Header :=
  ⟨(key, [value]) :: h.entries.filter (fun kv => kv.1 != key)⟩

/-- The values stored under `key`, as Go `h[key]` (empty when the key is absent). -/
def Header.Values (h : Header) (key : String) : List String :=
  match h.entries.find? (fun kv => kv.1 == key) with
  | some kv => kv.2
  | none => []

/-- Go `*http.Request` as `http.NewRequest` builds it: the stored `Method`, the
parsed `URL` in its printed form (`URL.String()`), the bytes of the `Body` and
the `Header`. -/
structure HttpRequest where
  Method : String
  URL : String
  Body : String
  Header : Header
  deriving DecidableEq, Repr

/-- Go `http.Client`: `Timeout` in nanoseconds, zero meaning no timeout. The
zero value `http.Client{}` has `Timeout = 0`. -/
structure HttpClient where
  Timeout : Nat := 0
  deriving DecidableEq, Repr

/-- A response body stream as `ioutil.ReadAll` sees it: the bytes it delivers
and the read error, if the stream broke before its end. -/
structure BodyStream where
  data : String
  err : Option GoError := none
  deriving DecidableEq, Repr

/-- Go `*http.Response`: status code and body stream. -/
structure Response where
  StatusCode : Nat
  Body : BodyStream
  deriving DecidableEq, Repr

/-- Go `ioutil.ReadAll`: the data read and the error met, if any. -/
def ReadAll (b : BodyStream) : String × Option GoError := (b.data, b.err)

/-- The outside world of one call.

* `urlParses`: which urls `net/url.Parse` accepts;
* `urlString`: how the parsed url prints (`Parse` followed by `String`, which
  re-encodes it: a blank in the path comes out as `%20`);
* `Do`: what `Client.Do` answers to a request issued with a given client;
* `wire`: the HTTP requests the client puts on the network while it serves that
  one `Do`: the request itself and, under the default policy of `http.Client`,
  one more for each redirect it follows. -/
structure World where
  urlParses : String → Bool
  urlString : String → String
  Do : HttpClient → HttpRequest → Except GoError Response
  wire : HttpClient → HttpRequest → List HttpRequest

/-- HTTP token characters (net/http `isTokenTable`), by code point:
`! # $ % & ' * + - . ^ _ | ~`, the backquote, digits and ASCII letters. -/
def isTokenRune (c : Char) : Bool :=
  let n := c.toNat
  (48 ≤ n && n ≤ 57) || (65 ≤ n && n ≤ 90) || (97 ≤ n && n ≤ 122) ||
    [33, 35, 36, 37, 38, 39, 42, 43, 45, 46, 94, 95, 96, 124, 126].contains n

/-- net/http `validMethod`: a non-empty string of token characters. -/
def validMethod (method : String) : Bool :=
  !method.toList.isEmpty && method.toList.all isTokenRune

/-- Go `http.NewRequest`: an empty method is replaced by `GET`; the call fails
(returning a nil request) on an invalid method or an unparsable url; the new
request stores the method, the parsed url, the body and an empty header map.
The texts of the two errors are abridged (Go adds the quoted method, resp. the
url and the cause); `send` discards them. -/
def NewRequest (w : World) (method url body : String) : Except GoError HttpRequest :=
  let method := if method == "" then "GET" else method
  if !validMethod method then
    .error ⟨"net/http: invalid method"⟩
  else if !w.urlParses url then
    .error ⟨"parse: invalid URL"⟩
  else
    .ok { Method := method, URL := w.urlString url, Body := body, Header := Header.empty }

/-! ## request.go -/

/-- The struct `Request` of request.go. -/
structure Request where
  method : String
  url : String
  body : String
  deriving DecidableEq, Repr

/-- How one invocation of a Go function ends: it returns its `(error, string)`
pair, or the goroutine panics. -/
inductive Outcome where
  | returned (err : Option GoError) (body : String)
  | panic (msg : String)
  deriving DecidableEq, Repr

/-- One run of `send`: the HTTP calls made on the transport, in order (each
with the client that made it), and the outcome. -/
structure Run where
  calls : List (HttpClient × HttpRequest)
  outcome : Outcome
  deriving DecidableEq, Repr

/-- The Go runtime's message for a nil pointer dereference. -/
def nilDeref : String := "runtime error: invalid memory address or nil pointer dereference"

/-- The method `(*Request).send` of request.go.

* `req, err := http.NewRequest(...)`: `err` is not inspected, and
  `req.Header.Set(...)` dereferences `req`, which is nil when construction
  failed: the goroutine panics before any call is made.
* `client := &http.Client{}` is a fresh zero-value client.
* `resp, err := client.Do(req)`; a non-nil `err` is returned with `"Error"`.
* otherwise the body is read (`ioutil.ReadAll`, its error discarded) and
  returned with a nil error; the status code is not looked at. -/
def send (w : World) (r : Request) : Run :=
  match NewRequest w r.method r.url r.body with
  | .error _ => { calls := [], outcome := .panic nilDeref }
  | .ok req0 =>
    let req : HttpRequest :=
      { req0 with Header := req0.Header.Set "Content-Type" "application/json" }
    let client : HttpClient := {}
    match w.Do client req with
    | .error err => { calls := [(client, req)], outcome := .returned (some err) "Error" }
    | .ok resp =>
      let resp_body := (ReadAll resp.Body).1
      { calls := [(client, req)], outcome := .returned none resp_body }

/-- The HTTP requests one run of `send` puts on the network: those the client
makes while serving the calls of the run. -/
def wireRequests (w : World) (r : Request) : List HttpRequest :=
  ((send w r).calls.map (fun c => w.wire c.1 c.2)).flatten

/-! ## Concrete worlds used to evaluate the code

The urls of these worlds are plain (`http://127.0.0.1:8080/apps/id/...`, no
blank, no escape), so they print as they are written, except where said. -/

/-- A world whose server answers every request with the given status and body. -/
def fixedServer (code : Nat) (body : String) : World :=
  { urlParses := fun _ => true
    urlString := fun u => u
    Do := fun _ _ => .ok { StatusCode := code, Body := { data := body } }
    wire := fun _ req => [req] }

/-- A world in which every round trip fails with the error `e`. -/
def brokenNetwork (e : GoError) : World :=
  { urlParses := fun _ => true
    urlString := fun u => u
    Do := fun _ _ => .error e
    wire := fun _ req => [req] }

/-- A world whose server answers the first request with `307 Temporary Redirect`
and `Location: http://127.0.0.1:8081/apps/id/events`, and the request to that
location with `200` and the body `{}`. The zero-value `http.Client` follows the
redirect inside `Do`: for a 307 it sends the same method, headers and body
again (`http.NewRequest` sets `GetBody` for a `bytes.Buffer`), to the new
location, and `Do` returns the second answer. -/
def redirectingServer : World :=
  { urlParses := fun _ => true
    urlString := fun u => u
    Do := fun _ _ => .ok { StatusCode := 200, Body := { data := "\x7b\x7d" } }
    wire := fun _ req => [req, { req with URL := "http://127.0.0.1:8081/apps/id/events" }] }

/-- A world in which `net/url` prints a blank of the path as `%20`, as
`url.Parse` followed by `String` does; the server answers `200`. -/
def escapingWorld : World :=
  { urlParses := fun _ => true
    urlString := fun u => String.join (u.toList.map fun ch =>
      if ch == ' ' then "%20" else String.singleton ch)
    Do := fun _ _ => .ok { StatusCode := 200, Body := { data := "\x7b\x7d" } }
    wire := fun _ req => [req] }

/-- Go `time.Millisecond`, in nanoseconds (the unit of `time.Duration`). -/
def millisecond : Nat := 1000000

/-- Go `time.Second`, in nanoseconds. -/
def second : Nat := 1000 * millisecond

/-- The error net/http reports when `Client.Timeout` elapses. -/
def timeoutError : GoError := ⟨"net/http: request canceled (Client.Timeout exceeded while awaiting headers)"⟩

/-- A world whose server answers `200` with body `{}` after `delay`
nanoseconds (the handler of TestRequestTimeouts): a client with a non-zero
`Timeout` shorter than the delay gets the timeout error, any other client the
response. -/
def slowServer (delay : Nat) : World :=
  { urlParses := fun _ => true
    urlString := fun u => u
    Do := fun c _ =>
      if c.Timeout != 0 && c.Timeout < delay then .error timeoutError
      else .ok { StatusCode := 200, Body := { data := "\x7b\x7d" } }
    wire := fun _ req => [req] }

/-- The client configuration of TestRequestTimeouts:
`HttpClient: &http.Client{Timeout: time.Millisecond * 100}`. -/
def testTimeoutClient : HttpClient := { Timeout := millisecond * 100 }

/-- The error message the tests expect for a response outside 200-299
(client_test.go, TestErrorResponseHandler and TestNotifyServerError):
`Status Code: ` followed by the code, ` - ` and the body. -/
def expectedAPIError (code : Nat) (body : String) : String :=
  "Status Code: " ++ toString code ++ " - " ++ body

/-- The body of the 400 answer in TestErrorResponseHandler. -/
def presenceBody : String :=
  "Cannot retrieve the user count unless the channel is a presence channel"

/-! ## Validator and trigger facade

The file client.go is not among the sources; only its tests are. The
definitions below follow the specification (sections 4.1 and 7). -/

/-- Modelled from the spec: the validation failures of a trigger call
(section 4.1); client.go, which declares them, is missing. -/
inductive ValidationError where
  | ChannelCountExceeded
  | InvalidChannelName
  | PayloadTooLarge
  | InvalidExclusionToken
  deriving DecidableEq, Repr

/-- Modelled from the spec: the error texts of the validation failures, as the
tests of the missing client.go assert them (no text is given for an invalid
exclusion token). -/
def ValidationError.text : ValidationError → Option String
  | .ChannelCountExceeded => some "You cannot trigger on more than 10 channels at once"
  | .InvalidChannelName => some "At least one of your channels' names are invalid"
  | .PayloadTooLarge => some "Data must be smaller than 10kb"
  | .InvalidExclusionToken => none

/-- Modelled from the spec: the character class `[A-Za-z0-9_\-=@,.;]` of
channel names (the validator of the missing client.go). -/
def allowedChannelChar (c : Char) : Bool :=
  ('A' ≤ c && c ≤ 'Z') || ('a' ≤ c && c ≤ 'z') || ('0' ≤ c && c ≤ '9') ||
    c == '_' || c == '-' || c == '=' || c == '@' || c == ',' || c == '.' || c == ';'

/-- Modelled from the spec: a channel name is valid when every character is in
the allowed class and it has at most 200 characters (missing client.go). -/
def channelNameValid (name : String) : Bool :=
  name.toList.all allowedChannelChar && decide (name.length ≤ 200)

/-- Modelled from the spec: the channel rules of the validator of the missing
client.go, the count first: at most 10 names, each of them valid. -/
def validateChannels (channels : List String) : Option ValidationError :=
  if channels.length > 10 then some .ChannelCountExceeded
  else if !channels.all channelNameValid then some .InvalidChannelName
  else none

/-- Modelled from the spec: the exclusion-token pattern `^\d+\.\d+$` (missing
client.go): digits, one dot, digits. -/
def exclusionTokenValid (token : String) : Bool :=
  match token.toList.span Char.isDigit with
  | (a, '.' :: b) => !a.isEmpty && !b.isEmpty && b.all Char.isDigit
  | _ => false

/-- Modelled from the spec: the validator of the missing client.go for a
trigger call, its rules applied in the order section 4.1 lists them: channel
count, channel names, size of the serialized payload in bytes (smaller than
10,240), exclusion token when one is supplied. -/
def validateTrigger (channels : List String) (payload : String)
    (socketId : Option String) : Option ValidationError :=
  match validateChannels channels with
  | some e => some e
  | none =>
    if payload.utf8ByteSize ≥ 10240 then some .PayloadTooLarge
    else match socketId with
      | some token => if exclusionTokenValid token then none else some .InvalidExclusionToken
      | none => none

/-- Modelled from the spec: why a facade call failed: a validation failure,
found before any network call, or an error of the later stages (missing
client.go). -/
inductive Failure where
  | validation (v : ValidationError)
  | downstream (e : GoError)
  deriving DecidableEq, Repr

/-- Modelled from the spec: what the stages after the Validator did (Request
Builder, Signer, Transport, Decoder of the missing client.go): the HTTP calls
made and the error met, if any. -/
structure Dispatched where
  calls : List (HttpClient × HttpRequest)
  err : Option GoError
  deriving DecidableEq, Repr

/-- Modelled from the spec: what a facade call did: the HTTP calls it made and
the error it returned, if any (missing client.go). -/
structure CallResult where
  calls : List (HttpClient × HttpRequest)
  err : Option Failure
  deriving DecidableEq, Repr

/-- Modelled from the spec: the trigger path of the client facade (missing
client.go): Validator first, and only on success the rest of the pipeline
(Request Builder, Signer, Transport, Decoder), which is the parameter
`dispatch`. `data` is the serialized event payload. -/
def trigger (dispatch : List String → String → String → Option String → Dispatched)
    (channels : List String) (event data : String) (socketId : Option String) : CallResult :=
  match validateTrigger channels data socketId with
  | some v => { calls := [], err := some (.validation v) }
  | none =>
    let d := dispatch channels event data socketId
    { calls := d.calls, err := d.err.map .downstream }

/-- Modelled from the spec: `Client.TriggerMulti` of the missing client.go. -/
def TriggerMulti (dispatch : List String → String → String → Option String → Dispatched)
    (channels : List String) (event data : String) : CallResult :=
  trigger dispatch channels event data none

/-- Modelled from the spec: `Client.Trigger` of the missing client.go, a
trigger on one channel. -/
def Trigger (dispatch : List String → String → String → Option String → Dispatched)
    (channel event data : String) : CallResult :=
  trigger dispatch [channel] event data none

/-- Modelled from the spec: `Client.TriggerExclusive` of the missing client.go,
a trigger on one channel with an exclusion token. -/
def TriggerExclusive (dispatch : List String → String → String → Option String → Dispatched)
    (channel event data socketID : String) : CallResult :=
  trigger dispatch [channel] event data (some socketID)

/-- The characters of the class `[A-Za-z0-9_\-=@,.;]`, written out. -/
def channelCharset : List Char :=
  "ABCDEFGHIJKLMNOPQRSTUVWXYZabcdefghijklmnopqrstuvwxyz0123456789_-=@,.;".toList

/-- A pipeline that sends one request and succeeds, to evaluate the facade. -/
def sendingDispatch : List String → String → String → Option String → Dispatched :=
  fun _ _ data _ =>
    { calls := [({}, { Method := "POST", URL := "http://h/apps/id/events", Body := data,
                       Header := Header.empty })],
      err := none }

/-- A string of `n` letters `a`, as the test loops build it. -/
def repeatA (n : Nat) : String := String.mk (List.replicate n 'a')

/-- The request of TestErrorResponseHandler as it reaches the transport. -/
def channelQuery : Request :=
  { method := "GET", url := "http://127.0.0.1:8080/apps/id/channels/this_is_not_a_presence_channel",
    body := "" }

/-- The trigger request of TestTriggerSuccessCase as it reaches the transport. -/
def triggerRequest : Request :=
  { method := "POST", url := "http://127.0.0.1:8080/apps/id/events",
    body := "\x7b\"name\":\"test\",\"channels\":[\"test_channel\"],\"data\":\"yolo\"\x7d" }

/-- A request whose method is not an HTTP token (it contains a blank), so that
`http.NewRequest` fails. -/
def badMethodRequest : Request :=
  { method := "BAD METHOD", url := "http://127.0.0.1:8080/apps/id/events", body := "" }

/-- A request with an empty method, which net/http takes as GET. -/
def emptyMethodRequest : Request :=
  { method := "", url := "http://127.0.0.1:8080/apps/id/channels", body := "" }

/-- A request whose url has a blank in its path. -/
def blankPathRequest : Request :=
  { method := "GET", url := "http://127.0.0.1:8080/apps/id/channels/a b", body := "" }

/-- A connection failure, as `Client.Do` reports it. -/
def dialError : GoError := ⟨"dial tcp 127.0.0.1:8080: connect: connection refused"⟩

/-- The request `send` hands to the transport for `triggerRequest`. -/
def triggerWire : HttpRequest :=
  { Method := "POST", URL := triggerRequest.url, Body := triggerRequest.body,
    Header := ⟨[("Content-Type", ["application/json"])]⟩ }

/-! ## Evaluation checks -/

theorem eval_send_ok : (send (fixedServer 200 "ok") triggerRequest).outcome
    = .returned none "ok" := by decide

theorem eval_validate_eleven :
    validateChannels ["1", "2", "3", "4", "5", "6", "7", "8", "9", "10", "11"]
      = some .ChannelCountExceeded := by decide

theorem eval_validate_bad_name :
    validateChannels ["w000^$$£@@@"] = some .InvalidChannelName := by decide

theorem eval_validate_good : validateChannels ["test_channel", "presence-x"] = none := by decide

theorem eval_exclusion_token :
    exclusionTokenValid "1234.12" = true ∧ exclusionTokenValid "1234.12:lalala" = false := by
  decide

theorem eval_expected_error : expectedAPIError 500 "" = "Status Code: 500 - " := by decide

/-! ## Lemmas on `send` -/

theorem NewRequest_ok_fields (w : World) (method url body : String) (req : HttpRequest)
    (h : NewRequest w method url body = .ok req) :
    req = { Method := if method = "" then "GET" else method, URL := w.urlString url,
            Body := body, Header := Header.empty } := by
  unfold NewRequest at h
  simp only [beq_iff_eq] at h
  by_cases hv : validMethod (if method = "" then "GET" else method) = true
  · by_cases hu : w.urlParses url = true
    · simp only [hv, hu, Bool.not_true, Bool.false_eq_true, if_false, Except.ok.injEq] at h
      exact h.symm
    · simp [hv, hu] at h
  · simp [hv] at h

theorem NewRequest_ok_parses (w : World) (method url body : String) (req : HttpRequest)
    (h : NewRequest w method url body = .ok req) : w.urlParses url = true := by
  unfold NewRequest at h
  simp only [beq_iff_eq] at h
  by_cases hv : validMethod (if method = "" then "GET" else method) = true
  · by_cases hu : w.urlParses url = true
    · exact hu
    · simp [hv, hu] at h
  · simp [hv] at h

/-- What `send` does once the request is built. -/
theorem send_of_built (w : World) (r : Request) (req : HttpRequest)
    (h : NewRequest w r.method r.url r.body = .ok req) :
    send w r =
      match w.Do {} { req with Header := req.Header.Set "Content-Type" "application/json" } with
      | .error err =>
        { calls := [({}, { req with Header := req.Header.Set "Content-Type" "application/json" })],
          outcome := .returned (some err) "Error" }
      | .ok resp =>
        { calls := [({}, { req with Header := req.Header.Set "Content-Type" "application/json" })],
          outcome := .returned none resp.Body.data } := by
  unfold send
  rw [h]
  rfl

/-- What `send` does when the request cannot be built. -/
theorem send_of_failed (w : World) (r : Request) (e : GoError)
    (h : NewRequest w r.method r.url r.body = .error e) :
    send w r = { calls := [], outcome := .panic nilDeref } := by
  unfold send
  rw [h]

/-- Every call `send` makes is made by the zero-value client on the request
built from the `Request`, with the content type set on it. -/
theorem send_call_shape (w : World) (r : Request) (c : HttpClient × HttpRequest)
    (hc : c ∈ (send w r).calls) :
    (send w r).calls = [c] ∧ c.1 = {} ∧
      c.2 = { Method := if r.method = "" then "GET" else r.method, URL := w.urlString r.url,
              Body := r.body,
              Header := Header.empty.Set "Content-Type" "application/json" } := by
  cases hreq : NewRequest w r.method r.url r.body with
  | error e =>
    rw [send_of_failed w r e hreq] at hc
    simp at hc
  | ok req =>
    have hf := NewRequest_ok_fields w _ _ _ req hreq
    rw [send_of_built w r req hreq] at hc ⊢
    subst hf
    split at hc <;> simp at hc <;> subst hc <;> simp

/-- The outcome of `send` follows what `Do` answered to the call it made. -/
theorem send_outcome_of_call (w : World) (r : Request) (c : HttpClient × HttpRequest)
    (hc : c ∈ (send w r).calls) :
    (send w r).outcome =
      match w.Do c.1 c.2 with
      | .error err => .returned (some err) "Error"
      | .ok resp => .returned none resp.Body.data := by
  obtain ⟨_, h1, h2⟩ := send_call_shape w r c hc
  cases hreq : NewRequest w r.method r.url r.body with
  | error e =>
    rw [send_of_failed w r e hreq] at hc
    simp at hc
  | ok req =>
    have hf := NewRequest_ok_fields w _ _ _ req hreq
    rw [send_of_built w r req hreq]
    subst hf
    rw [h1, h2]
    dsimp only
    generalize w.Do _ _ = answer
    cases answer <;> rfl

/-! ## The claims on `send` -/

/-- C1, evaluated on the code: for a response outside 200-299 `send` reports no
error at all. On the 400 answer of TestErrorResponseHandler it returns a nil
error with the body as its result, and likewise on a 500 answer with an empty
body, where the tests expect the errors `Status Code: 400 - ...` and
`Status Code: 500 - `. No caller can repair this from what `send` returns: the
result does not carry the status code, so no function of the request and of the
outcome of `send` yields the expected error for every status. -/
theorem send_reports_no_error_outside_2xx :
    (send (fixedServer 400 presenceBody) channelQuery).outcome = .returned none presenceBody ∧
    (send (fixedServer 500 "") triggerRequest).outcome = .returned none "" ∧
    expectedAPIError 400 presenceBody =
      "Status Code: 400 - Cannot retrieve the user count unless the channel is a presence channel" ∧
    expectedAPIError 500 "" = "Status Code: 500 - " ∧
    ¬ ∃ errorOf : Request → Outcome → Option GoError,
        ∀ (code : Nat) (body : String) (r : Request), ¬ (200 ≤ code ∧ code ≤ 299) →
          errorOf r (send (fixedServer code body) r).outcome
            = some ⟨expectedAPIError code body⟩ := by
  refine ⟨by decide, by decide, by decide, by decide, ?_⟩
  rintro ⟨errorOf, h⟩
  have h400 := h 400 "" channelQuery (by omega)
  have h500 := h 500 "" channelQuery (by omega)
  have same : (send (fixedServer 400 "") channelQuery).outcome
      = (send (fixedServer 500 "") channelQuery).outcome := by decide
  rw [same, h500] at h400
  revert h400
  decide

/-- C2: whenever the round trip `send` performs fails, `Do` returning the error
`e`, `send` returns that very error `e` (non-nil), and its string result is the
fixed text `Error`, not a response body. -/
theorem send_transport_error (w : World) (r : Request) (c : HttpClient × HttpRequest)
    (e : GoError) (hc : c ∈ (send w r).calls) (he : w.Do c.1 c.2 = .error e) :
    (send w r).outcome = .returned (some e) "Error" := by
  rw [send_outcome_of_call w r c hc, he]

theorem send_transport_error_witness :
    (send (brokenNetwork dialError) triggerRequest).outcome
      = .returned (some dialError) "Error" :=
  send_transport_error (brokenNetwork dialError) triggerRequest ({}, triggerWire) dialError
    (by decide) rfl

/-- C3 as stated fails: the result of `send` carries no status code. Answers
with the same body and the status codes 200 and 404 give the same result, so no
function of the result of `send` returns the status code of the response. -/
theorem send_result_has_no_status_code :
    (send (fixedServer 200 "ok") triggerRequest) = (send (fixedServer 404 "ok") triggerRequest) ∧
    ¬ ∃ statusOf : Outcome → Nat,
        ∀ (w : World) (r : Request) (c : HttpClient × HttpRequest) (resp : Response),
          c ∈ (send w r).calls → w.Do c.1 c.2 = .ok resp →
            statusOf (send w r).outcome = resp.StatusCode := by
  refine ⟨by decide, ?_⟩
  rintro ⟨statusOf, h⟩
  have h200 := h (fixedServer 200 "ok") triggerRequest ({}, triggerWire)
    { StatusCode := 200, Body := { data := "ok" } } (by decide) rfl
  have h404 := h (fixedServer 404 "ok") triggerRequest ({}, triggerWire)
    { StatusCode := 404, Body := { data := "ok" } } (by decide) rfl
  have same : (send (fixedServer 200 "ok") triggerRequest).outcome
      = (send (fixedServer 404 "ok") triggerRequest).outcome := by decide
  rw [same, h404] at h200
  revert h200
  decide

/-- C3, amended: when the round trip `send` performs completes with a status in
200-299 and the body is read to its end without error, `send` returns a nil
error together with the response body exactly as it arrived. The result is the
pair (error, string) of `Outcome.returned`: it has no status code. -/
theorem send_returns_body (w : World) (r : Request) (c : HttpClient × HttpRequest)
    (resp : Response) (hc : c ∈ (send w r).calls) (hdo : w.Do c.1 c.2 = .ok resp)
    (_h2xx : 200 ≤ resp.StatusCode ∧ resp.StatusCode ≤ 299) (_hread : resp.Body.err = none) :
    (send w r).outcome = .returned none resp.Body.data := by
  rw [send_outcome_of_call w r c hc, hdo]

theorem send_returns_body_witness :
    (send (fixedServer 200 "\x7b\"users\":[\x7b\"id\":\"red\"\x7d,\x7b\"id\":\"blue\"\x7d]\x7d")
        triggerRequest).outcome
      = .returned none "\x7b\"users\":[\x7b\"id\":\"red\"\x7d,\x7b\"id\":\"blue\"\x7d]\x7d" :=
  send_returns_body
    (fixedServer 200 "\x7b\"users\":[\x7b\"id\":\"red\"\x7d,\x7b\"id\":\"blue\"\x7d]\x7d")
    triggerRequest ({}, triggerWire)
    { StatusCode := 200,
      Body := { data := "\x7b\"users\":[\x7b\"id\":\"red\"\x7d,\x7b\"id\":\"blue\"\x7d]\x7d" } }
    (by decide) rfl (by decide) rfl

/-- C4: every request `send` issues (whether its body is empty or not, so in
particular every request with a body present) carries the header `Content-Type`
with the single value `application/json`. -/
theorem send_sets_content_type (w : World) (r : Request) (c : HttpClient × HttpRequest)
    (hc : c ∈ (send w r).calls) :
    c.2.Header.Values "Content-Type" = ["application/json"] := by
  obtain ⟨_, _, h2⟩ := send_call_shape w r c hc
  rw [h2]
  rfl

theorem send_sets_content_type_witness :
    triggerWire.Body = triggerRequest.body ∧ triggerRequest.body ≠ "" ∧
      triggerWire.Header.Values "Content-Type" = ["application/json"] :=
  ⟨rfl, by decide,
    send_sets_content_type (fixedServer 200 "\x7b\x7d") triggerRequest ({}, triggerWire)
      (by decide)⟩

/-- C5 as stated fails. One invocation of `send` can put two HTTP requests on
the network: when the server answers 307 the client, inside its one `Do`, sends
the request again to the new location. And the call is not always made with the
method and url of the `Request` unchanged: an empty method is sent as `GET`, and
a url with a blank in its path is sent with `%20`. -/
theorem send_second_request_and_changed_method :
    (wireRequests redirectingServer triggerRequest).length = 2 ∧
    (wireRequests redirectingServer triggerRequest).map (fun q => q.URL)
      = ["http://127.0.0.1:8080/apps/id/events", "http://127.0.0.1:8081/apps/id/events"] ∧
    (emptyMethodRequest.method = "" ∧
      (send (fixedServer 200 "ok") emptyMethodRequest).calls.map (fun c => c.2.Method)
        = ["GET"]) ∧
    (blankPathRequest.url = "http://127.0.0.1:8080/apps/id/channels/a b" ∧
      (send escapingWorld blankPathRequest).calls.map (fun c => c.2.URL)
        = ["http://127.0.0.1:8080/apps/id/channels/a%20b"]) ∧
    ¬ (∀ (w : World) (r : Request) (req : HttpRequest),
        NewRequest w r.method r.url r.body = .ok req →
          ∃ q, wireRequests w r = [q] ∧
            q.Method = r.method ∧ q.URL = r.url ∧ q.Body = r.body) := by
  refine ⟨by decide, by decide, ⟨rfl, by decide⟩, ⟨rfl, by decide⟩, ?_⟩
  intro h
  obtain ⟨q, hq, _⟩ := h redirectingServer triggerRequest
    { triggerWire with Header := Header.empty } rfl
  have hlen : (wireRequests redirectingServer triggerRequest).length = 2 := by decide
  rw [hq] at hlen
  simp at hlen

/-- C5, amended: one invocation of `send` invokes the HTTP client (`client.Do`)
at most once, never a second time; once the request is constructed it invokes it
exactly once, whether `Do` answers with a response or with an error. The request
handed to the client carries the body of the `Request` unchanged, its method
(`GET` when the method is empty) and its url as net/url parses and prints it;
and the requests put on the network are those the client makes for that one
call, nothing being sent again by `send` itself. -/
theorem send_invokes_client_once (w : World) (r : Request) :
    (send w r).calls.length ≤ 1 ∧
    (∀ req, NewRequest w r.method r.url r.body = .ok req →
      ∃ c, (send w r).calls = [c] ∧
        c.2.Method = (if r.method = "" then "GET" else r.method) ∧
        c.2.URL = w.urlString r.url ∧ c.2.Body = r.body ∧
        wireRequests w r = w.wire c.1 c.2) := by
  constructor
  · cases hreq : NewRequest w r.method r.url r.body with
    | error e => rw [send_of_failed w r e hreq]; simp
    | ok req =>
      rw [send_of_built w r req hreq]
      generalize w.Do _ _ = answer
      cases answer <;> simp
  · intro req hreq
    have hf := NewRequest_ok_fields w _ _ _ req hreq
    have hcalls : ∃ c, (send w r).calls = [c] := by
      rw [send_of_built w r req hreq]
      generalize w.Do _ _ = answer
      cases answer <;> exact ⟨_, rfl⟩
    obtain ⟨c, hc⟩ := hcalls
    obtain ⟨_, _, h2⟩ := send_call_shape w r c (by rw [hc]; exact List.mem_singleton.2 rfl)
    refine ⟨c, hc, ?_, ?_, ?_, ?_⟩
    · rw [h2]
    · rw [h2]
    · rw [h2]
    · unfold wireRequests
      rw [hc]
      simp

theorem send_invokes_client_once_witness :
    (send (fixedServer 200 "\x7b\x7d") triggerRequest).calls.length ≤ 1 ∧
    (send (brokenNetwork dialError) triggerRequest).calls.length ≤ 1 ∧
    (∃ c, (send (fixedServer 200 "\x7b\x7d") triggerRequest).calls = [c] ∧
      c.2.Method = (if triggerRequest.method = "" then "GET" else triggerRequest.method) ∧
      c.2.URL = triggerRequest.url ∧ c.2.Body = triggerRequest.body ∧
      wireRequests (fixedServer 200 "\x7b\x7d") triggerRequest = [c.2]) ∧
    (∃ c, (send (brokenNetwork dialError) triggerRequest).calls = [c] ∧
      c.2.Method = (if triggerRequest.method = "" then "GET" else triggerRequest.method) ∧
      c.2.URL = triggerRequest.url ∧ c.2.Body = triggerRequest.body ∧
      wireRequests (brokenNetwork dialError) triggerRequest = [c.2]) ∧
    (∃ c, (send (fixedServer 200 "ok") emptyMethodRequest).calls = [c] ∧
      c.2.Method = (if emptyMethodRequest.method = "" then "GET" else emptyMethodRequest.method) ∧
      c.2.URL = emptyMethodRequest.url ∧ c.2.Body = emptyMethodRequest.body ∧
      wireRequests (fixedServer 200 "ok") emptyMethodRequest = [c.2]) :=
  ⟨(send_invokes_client_once (fixedServer 200 "\x7b\x7d") triggerRequest).1,
   (send_invokes_client_once (brokenNetwork dialError) triggerRequest).1,
   (send_invokes_client_once (fixedServer 200 "\x7b\x7d") triggerRequest).2
     { triggerWire with Header := Header.empty } rfl,
   (send_invokes_client_once (brokenNetwork dialError) triggerRequest).2
     { triggerWire with Header := Header.empty } rfl,
   (send_invokes_client_once (fixedServer 200 "ok") emptyMethodRequest).2
     { Method := "GET", URL := emptyMethodRequest.url, Body := "", Header := Header.empty } rfl⟩

/-- C6, evaluated on the code: `send` makes its call with the fresh zero-value
client `http.Client{}`, whose `Timeout` is 0 (no timeout), whatever the caller
configured. With the server of TestRequestTimeouts (delay 1s) the configured
client (`Timeout` 100ms) would get the timeout error, but `send` waits for the
answer and returns a nil error with the body. -/
theorem send_ignores_configured_timeout :
    testTimeoutClient.Timeout = 100000000 ∧
    (slowServer second).Do testTimeoutClient triggerWire = .error timeoutError ∧
    (send (slowServer second) triggerRequest).calls = [({ Timeout := 0 }, triggerWire)] ∧
    (send (slowServer second) triggerRequest).outcome = .returned none "\x7b\x7d" ∧
    (∀ (w : World) (r : Request) (c : HttpClient × HttpRequest),
      c ∈ (send w r).calls → c.1.Timeout = 0) := by
  refine ⟨by decide, rfl, by decide, by decide, ?_⟩
  intro w r c hc
  obtain ⟨_, h1, _⟩ := send_call_shape w r c hc
  rw [h1]

/-- C10, evaluated on the code: when `http.NewRequest` fails (here on a method
that is not an HTTP token, in every world; likewise on any url that does not
parse), `send` does not return: `req` is nil and `req.Header.Set` panics with a
nil pointer dereference. So `send` does not return an (error, string) pair on
every `Request`. -/
theorem send_panics_on_failed_construction :
    NewRequest (fixedServer 200 "ok") badMethodRequest.method badMethodRequest.url
        badMethodRequest.body = .error ⟨"net/http: invalid method"⟩ ∧
    send (fixedServer 200 "ok") badMethodRequest = { calls := [], outcome := .panic nilDeref } ∧
    (∀ w : World, (send w badMethodRequest).outcome = .panic nilDeref) ∧
    (∀ (w : World) (r : Request), w.urlParses r.url = false →
      (send w r).outcome = .panic nilDeref) ∧
    ¬ (∀ (w : World) (r : Request), ∃ err body, (send w r).outcome = .returned err body) := by
  have hall : ∀ w : World, (send w badMethodRequest).outcome = .panic nilDeref := by
    intro w
    rw [send_of_failed w badMethodRequest ⟨"net/http: invalid method"⟩ (by
      unfold NewRequest
      rw [if_pos (by decide)])]
  refine ⟨rfl, by decide, hall, ?_, ?_⟩
  · intro w r hurl
    cases hreq : NewRequest w r.method r.url r.body with
    | error e => rw [send_of_failed w r e hreq]
    | ok req =>
      exfalso
      have hparses := NewRequest_ok_parses w _ _ _ req hreq
      rw [hurl] at hparses
      cases hparses
  intro h
  obtain ⟨err, body, hret⟩ := h (fixedServer 200 "ok") badMethodRequest
  rw [hall] at hret
  cases hret

/-! ## Lemmas on the validator -/

theorem allowedChannelChar_ascii : ∀ n : Fin 128,
    allowedChannelChar (Char.ofNat n) = decide (Char.ofNat n ∈ channelCharset) := by
  decide

theorem channelCharset_ascii : ∀ x ∈ channelCharset, x.toNat < 128 := by decide

theorem toNat_le_of_le (a b : Char) (h : a ≤ b) : a.toNat ≤ b.toNat := h

theorem allowedChannelChar_lt (c : Char) (h : allowedChannelChar c = true) : c.toNat < 128 := by
  simp only [allowedChannelChar, Bool.or_eq_true, Bool.and_eq_true, decide_eq_true_eq,
    beq_iff_eq] at h
  rcases h with ((((((((⟨_, h⟩ | ⟨_, h⟩) | ⟨_, h⟩) | h) | h) | h) | h) | h) | h) | h
  · have hle := toNat_le_of_le _ _ h
    have e : Char.toNat 'Z' = 90 := by decide
    omega
  · have hle := toNat_le_of_le _ _ h
    have e : Char.toNat 'z' = 122 := by decide
    omega
  · have hle := toNat_le_of_le _ _ h
    have e : Char.toNat '9' = 57 := by decide
    omega
  all_goals (subst h; decide)

/-- The character test of the validator accepts exactly the characters of the
class written out. -/
theorem allowedChannelChar_iff (c : Char) :
    allowedChannelChar c = true ↔ c ∈ channelCharset := by
  by_cases hc : c.toNat < 128
  · have h := allowedChannelChar_ascii ⟨c.toNat, hc⟩
    simp only [Char.ofNat_toNat] at h
    rw [h]
    simp
  · constructor
    · intro h
      exact absurd (allowedChannelChar_lt c h) hc
    · intro h
      exact absurd (channelCharset_ascii c h) hc

theorem channelNameValid_iff (name : String) :
    channelNameValid name = true ↔
      (∀ ch ∈ name.toList, ch ∈ channelCharset) ∧ name.length ≤ 200 := by
  simp only [channelNameValid, Bool.and_eq_true, List.all_eq_true, decide_eq_true_eq,
    allowedChannelChar_iff]

theorem validateChannels_eq_none_iff (channels : List String) :
    validateChannels channels = none ↔
      channels.length ≤ 10 ∧
        ∀ name ∈ channels, (∀ ch ∈ name.toList, ch ∈ channelCharset) ∧ name.length ≤ 200 := by
  unfold validateChannels
  by_cases hlen : channels.length > 10
  · simp only [hlen, if_true]
    constructor
    · intro h
      cases h
    · intro h
      omega
  · by_cases hall : channels.all channelNameValid = true
    · simp only [hlen, hall, if_false, Bool.not_true]
      simp only [List.all_eq_true, channelNameValid_iff] at hall
      simp only [Bool.false_eq_true, if_false, true_iff]
      exact ⟨by omega, hall⟩
    · have hall2 : channels.all channelNameValid = false := by
        simpa using hall
      simp only [hlen, hall2, if_false, Bool.not_false, if_true]
      constructor
      · intro h
        cases h
      · intro h
        exfalso
        apply hall
        simp only [List.all_eq_true, channelNameValid_iff]
        exact h.2

theorem utf8ByteSize_go_replicate (n : Nat) :
    String.utf8ByteSize.go (List.replicate n 'a') = n := by
  induction n with
  | zero => rfl
  | succ k ih =>
    rw [List.replicate_succ, String.utf8ByteSize.go, ih]
    rfl

theorem utf8ByteSize_repeatA (n : Nat) : (repeatA n).utf8ByteSize = n := by
  unfold repeatA
  exact utf8ByteSize_go_replicate n

theorem length_repeatA (n : Nat) : (repeatA n).length = n := by
  unfold repeatA
  simp [String.length]

/-! ## The claims on the validator -/

/-- C7: on more than 10 channel names, whatever the names, the event and the
data are, `TriggerMulti` fails with ChannelCountExceeded, whose text is
`You cannot trigger on more than 10 channels at once`, and makes no network
call; and a list of at most 10 names, each made of characters of the allowed
class and at most 200 characters long, passes channel validation. -/
theorem triggerMulti_channel_count
    (dispatch : List String → String → String → Option String → Dispatched)
    (channels : List String) (event data : String) :
    (10 < channels.length →
      TriggerMulti dispatch channels event data
          = { calls := [], err := some (.validation .ChannelCountExceeded) } ∧
        ValidationError.text .ChannelCountExceeded
          = some "You cannot trigger on more than 10 channels at once") ∧
    (channels.length ≤ 10 →
      (∀ name ∈ channels, (∀ ch ∈ name.toList, ch ∈ channelCharset) ∧ name.length ≤ 200) →
      validateChannels channels = none) := by
  constructor
  · intro hlen
    refine ⟨?_, rfl⟩
    have hv : validateChannels channels = some .ChannelCountExceeded := by
      unfold validateChannels
      rw [if_pos hlen]
    simp only [TriggerMulti, trigger, validateTrigger, hv]
  · intro hlen hall
    exact (validateChannels_eq_none_iff channels).2 ⟨hlen, hall⟩

theorem triggerMulti_channel_count_witness :
    TriggerMulti sendingDispatch ["1", "2", "3", "4", "5", "6", "7", "8", "9", "10", "11"]
        "yolo" "woot"
      = { calls := [], err := some (.validation .ChannelCountExceeded) } ∧
    validateChannels ["test_channel", "presence-room", "private-a=b@c,d.e;f"] = none :=
  ⟨((triggerMulti_channel_count sendingDispatch
        ["1", "2", "3", "4", "5", "6", "7", "8", "9", "10", "11"] "yolo" "woot").1
      (by decide)).1,
   (triggerMulti_channel_count sendingDispatch
        ["test_channel", "presence-room", "private-a=b@c,d.e;f"] "yolo" "woot").2
      (by decide) (by decide)⟩

/-- C8: a trigger call on at most 10 channels, one of whose names has a
character outside `[A-Za-z0-9_\-=@,.;]` or more than 200 characters, fails as a
whole with InvalidChannelName, whose text is
`At least one of your channels' names are invalid`, and sends nothing. -/
theorem trigger_invalid_channel_name
    (dispatch : List String → String → String → Option String → Dispatched)
    (channels : List String) (event data : String) (socketId : Option String) (name : String)
    (hcount : channels.length ≤ 10) (hname : name ∈ channels)
    (hbad : (∃ ch ∈ name.toList, ch ∉ channelCharset) ∨ 200 < name.length) :
    trigger dispatch channels event data socketId
        = { calls := [], err := some (.validation .InvalidChannelName) } ∧
      ValidationError.text .InvalidChannelName
        = some "At least one of your channels' names are invalid" := by
  refine ⟨?_, rfl⟩
  have hinvalid : channelNameValid name ≠ true := by
    intro hvalid
    obtain ⟨hchars, hlen⟩ := (channelNameValid_iff name).1 hvalid
    rcases hbad with ⟨ch, hch, hout⟩ | hlong
    · exact hout (hchars ch hch)
    · omega
  have hall : channels.all channelNameValid = false := by
    cases hcase : channels.all channelNameValid with
    | false => rfl
    | true =>
      exfalso
      exact hinvalid (List.all_eq_true.1 hcase name hname)
  have hv : validateChannels channels = some .InvalidChannelName := by
    unfold validateChannels
    rw [if_neg (by omega), hall]
    rfl
  simp only [trigger, validateTrigger, hv]

theorem trigger_invalid_channel_name_witness :
    Trigger sendingDispatch "w000^$$£@@@" "yolo" "w00t"
      = { calls := [], err := some (.validation .InvalidChannelName) } ∧
    Trigger sendingDispatch (repeatA 203) "yolo" "not 19 forever"
      = { calls := [], err := some (.validation .InvalidChannelName) } ∧
    TriggerMulti sendingDispatch ["test_channel", "w000^$$£@@@", "other"] "yolo" "w00t"
      = { calls := [], err := some (.validation .InvalidChannelName) } :=
  ⟨(trigger_invalid_channel_name sendingDispatch ["w000^$$£@@@"] "yolo" "w00t" none
      "w000^$$£@@@" (by decide) (by decide) (Or.inl (by decide))).1,
   (trigger_invalid_channel_name sendingDispatch [repeatA 203] "yolo" "not 19 forever" none
      (repeatA 203) (by decide) (List.mem_singleton.2 rfl)
      (Or.inr (by rw [length_repeatA]; decide))).1,
   (trigger_invalid_channel_name sendingDispatch ["test_channel", "w000^$$£@@@", "other"]
      "yolo" "w00t" none "w000^$$£@@@" (by decide) (by decide) (Or.inl (by decide))).1⟩

/-- C9: a trigger call with valid channels (at most 10 names, each of allowed
characters and at most 200 long) fails with PayloadTooLarge, whose text is
`Data must be smaller than 10kb`, exactly when the serialized payload has
10,240 bytes or more; when it does, nothing is sent. -/
theorem trigger_payload_limit
    (dispatch : List String → String → String → Option String → Dispatched)
    (channels : List String) (event data : String) (socketId : Option String)
    (hcount : channels.length ≤ 10)
    (hnames : ∀ name ∈ channels,
      (∀ ch ∈ name.toList, ch ∈ channelCharset) ∧ name.length ≤ 200) :
    ((trigger dispatch channels event data socketId).err
        = some (.validation .PayloadTooLarge) ↔ 10240 ≤ data.utf8ByteSize) ∧
    (10240 ≤ data.utf8ByteSize → (trigger dispatch channels event data socketId).calls = []) ∧
    (data.utf8ByteSize < 10240 → validateTrigger channels data none = none) ∧
    ValidationError.text .PayloadTooLarge = some "Data must be smaller than 10kb" := by
  have hv : validateChannels channels = none :=
    (validateChannels_eq_none_iff channels).2 ⟨hcount, hnames⟩
  by_cases hsize : 10240 ≤ data.utf8ByteSize
  · have hge : data.utf8ByteSize ≥ 10240 := hsize
    refine ⟨?_, ?_, fun h => by omega, rfl⟩
    · simp only [trigger, validateTrigger, hv, hge, if_true, hsize]
    · intro _
      simp only [trigger, validateTrigger, hv, hge, if_true]
  · have hlt : ¬ data.utf8ByteSize ≥ 10240 := hsize
    refine ⟨?_, fun h => absurd h hsize, fun _ => by simp only [validateTrigger, hv, hlt, if_false],
      rfl⟩
    simp only [hsize, iff_false]
    simp only [trigger, validateTrigger, hv, hlt, if_false]
    cases socketId with
    | none =>
      simp only []
      cases (dispatch channels event data none).err <;> simp
    | some token =>
      by_cases htok : exclusionTokenValid token = true
      · simp only [htok, if_true]
        cases (dispatch channels event data (some token)).err <;> simp
      · simp [htok]

theorem trigger_payload_limit_witness :
    (Trigger sendingDispatch "channel" "event" (repeatA 10243)).err
      = some (.validation .PayloadTooLarge) ∧
    (Trigger sendingDispatch "channel" "event" (repeatA 10240)).err
      = some (.validation .PayloadTooLarge) ∧
    (Trigger sendingDispatch "channel" "event" (repeatA 10239)).err
      ≠ some (.validation .PayloadTooLarge) ∧
    validateTrigger ["channel"] (repeatA 10239) none = none :=
  ⟨(trigger_payload_limit sendingDispatch ["channel"] "event" (repeatA 10243) none
      (by decide) (by decide)).1.2 (by rw [utf8ByteSize_repeatA]; decide),
   (trigger_payload_limit sendingDispatch ["channel"] "event" (repeatA 10240) none
      (by decide) (by decide)).1.2 (by rw [utf8ByteSize_repeatA]),
   fun h => absurd
     ((trigger_payload_limit sendingDispatch ["channel"] "event" (repeatA 10239) none
        (by decide) (by decide)).1.1 h)
     (by rw [utf8ByteSize_repeatA]; decide),
   (trigger_payload_limit sendingDispatch ["channel"] "event" (repeatA 10239) none
      (by decide) (by decide)).2.2.1 (by rw [utf8ByteSize_repeatA]; decide)⟩

end Pusher
